import Mathlib

/-!
# Shallow embedding of `static/js/game.js` (Error Galaxy Shooter)

JS numbers are modelled as rationals; the entity arrays as lists.  The
`Math.random()` draws consumed when an explosion is spawned are supplied
explicitly through an `ExplosionRand` stream, and outbound side effects
(the audio cue, the overlay-show `setTimeout`, fire events) are modelled
as event counters on the game state.  `Game.update(dtMs)` is embedded
stage by stage, in the order the source executes its blocks: clamp the
delta, advance global time, smooth and clamp the player, fire, move
bullets and drop off-screen ones, resolve bullet/piece collisions,
age particles, decay the shake timer, and finally check the win
condition.
-/

namespace ErrorPages

/-- `clamp` from game.js line 63: `Math.max(min, Math.min(max, v))`. -/
def clamp (v lo hi : ℚ) : ℚ := max lo (min hi v)

/-- `lerp` from game.js line 64: `a + (b - a) * t`. -/
def lerp (a b t : ℚ) : ℚ := a + (b - a) * t

/-- `CONFIG.shootIntervalMs` (game.js line 44). -/
def CONFIG.shootIntervalMs : ℚ := 120

/-- `CONFIG.shakeDurationMs` (game.js line 45). -/
def CONFIG.shakeDurationMs : ℚ := 150

/-- `CONFIG.maxDeltaMs` (game.js line 46): the per-tick delta clamp. -/
def CONFIG.maxDeltaMs : ℚ := 40

/-- `CONFIG.bulletRadius` (game.js line 47). -/
def CONFIG.bulletRadius : ℚ := 4

/-- `CONFIG.bulletSpeedMin` (game.js line 48). -/
def CONFIG.bulletSpeedMin : ℚ := 400

/-- `CONFIG.bulletSpeedFactor` (game.js line 49). -/
def CONFIG.bulletSpeedFactor : ℚ := 7 / 10

/-- `CONFIG.playerLerp` (game.js line 50). -/
def CONFIG.playerLerp : ℚ := 18 / 100

/-- `CONFIG.gravity` (game.js line 51): `400 * 0.3`. -/
def CONFIG.gravity : ℚ := 400 * (3 / 10)

/-- The player record (game.js lines 271-277). -/
structure Player where
  x : ℚ
  y : ℚ
  w : ℚ
  h : ℚ
  targetX : ℚ
  deriving DecidableEq

/-- One destructible piece of the rendered error text (game.js lines
343-348).  The `hsl(hue, 90%, 70%)` colour string is represented by its
hue. -/
structure Piece where
  x : ℚ
  y : ℚ
  r : ℚ
  color : ℚ
  deriving DecidableEq

/-- A bullet (game.js lines 358-363). -/
structure Bullet where
  x : ℚ
  y : ℚ
  vy : ℚ
  r : ℚ
  deriving DecidableEq

/-- An explosion particle (game.js lines 373-382). -/
structure Particle where
  x : ℚ
  y : ℚ
  vx : ℚ
  vy : ℚ
  life : ℚ
  age : ℚ
  alpha : ℚ
  color : ℚ
  deriving DecidableEq

/-- The random draws one explosion particle consumes (game.js lines
370-371, 378).  The velocity components stand for `cos(angle) * speed`
and `sin(angle) * speed` for the uniformly random angle and the speed in
`[50, 250)`; `lifeDraw` is the `Math.random()` value in `[0,1)` used for
the particle's life `0.4 + lifeDraw * 0.5`. -/
structure ParticleSeed where
  vx : ℚ
  vy : ℚ
  lifeDraw : ℚ

/-- The random draws one `spawnExplosion` call consumes: `countDraw` is
the `Math.random()` value in `[0,1)` behind `count = 12 + countDraw*10`
(game.js line 367), and `seed i` the draws of the i-th particle. -/
structure ExplosionRand where
  countDraw : ℚ
  seed : ℕ → ParticleSeed

/-- Number of iterations of the JS loop `for (let i = 0; i < count; i++)`
(game.js line 369) for the fractional bound `count = 12 + r * 10`. -/
def explosionCount (r : ℚ) : ℕ := (⌈(12 : ℚ) + r * 10⌉).toNat

/-- `Game.spawnExplosion` (game.js lines 366-384): a burst of particles,
all placed at `(x, y)` with the destroyed piece's colour, each with
life `0.4 + r * 0.5`, age `0` and alpha `1`. -/
def spawnExplosion (er : ExplosionRand) (x y color : ℚ) : List Particle :=
  (List.range (explosionCount er.countDraw)).map fun i =>
    let s := er.seed i
    { x := x, y := y, vx := s.vx, vy := s.vy,
      life := 4 / 10 + s.lifeDraw * (5 / 10), age := 0, alpha := 1, color := color }

/-- The circle-circle overlap test of the collision loop (game.js lines
427-431): `dx*dx + dy*dy <= rr*rr` with `rr = b.r + p.r`. -/
def hits (b : Bullet) (p : Piece) : Bool :=
  let dx := b.x - p.x
  let dy := b.y - p.y
  let rr := b.r + p.r
  decide (dx * dx + dy * dy ≤ rr * rr)

/-- The inner collision loop for one bullet (game.js lines 425-438):
`j` runs from `pieces.length - 1` down to `0` and breaks at the first
overlapping piece, so the overlapping piece with the HIGHEST index is
removed.  Returns that piece and the remaining list, or `none` when the
bullet overlaps no piece. -/
def removeHit (b : Bullet) : List Piece → Option (Piece × List Piece)
  | [] => none
  | p :: ps =>
      match removeHit b ps with
      | some (q, ps2) => some (q, p :: ps2)
      | none => if hits b p then some (p, ps) else none

/-- Accumulator of the outer collision loop (game.js lines 422-440):
surviving bullets, remaining pieces, particles pushed by
`spawnExplosion`, and the number of hits (each hit is one
`triggerShake()` and one `playBubbleSound()` call). -/
structure CollideAcc where
  bullets : List Bullet
  pieces : List Piece
  newParticles : List Particle
  hitsCount : ℕ
  deriving DecidableEq

/-- One iteration of the outer collision loop (game.js lines 422-440)
for bullet `b`.  On a hit the bullet is spliced out (not kept), the
matched piece is spliced out, and one explosion burst is appended; the
`k`-th hit of the tick consumes `rng k`. -/
def collideBullet (rng : ℕ → ExplosionRand) (b : Bullet) (acc : CollideAcc) : CollideAcc :=
  match removeHit b acc.pieces with
  | none => { acc with bullets := b :: acc.bullets }
  | some (p, ps2) =>
      { bullets := acc.bullets
        pieces := ps2
        newParticles := acc.newParticles ++ spawnExplosion (rng acc.hitsCount) p.x p.y p.color
        hitsCount := acc.hitsCount + 1 }

/-- Bullet motion and off-screen removal (game.js lines 412-419):
`b.y += b.vy * dtSec`, then splice when `b.y + b.r < 0`. -/
def stepBullets (dtSec : ℚ) (bs : List Bullet) : List Bullet :=
  (bs.map fun b => { b with y := b.y + b.vy * dtSec }).filter fun b => !decide (b.y + b.r < 0)

/-- One particle's update (game.js lines 443-458): `age += dtSec`;
removed when `age >= life`; otherwise `alpha = 1 - age/life`, the
position integrates velocity and `vy` gains gravity. -/
def stepParticle (dtSec : ℚ) (pa : Particle) : Option Particle :=
  let age2 := pa.age + dtSec
  if age2 ≥ pa.life then none
  else
    some { pa with age := age2, alpha := 1 - age2 / pa.life,
                   x := pa.x + pa.vx * dtSec, y := pa.y + pa.vy * dtSec,
                   vy := pa.vy + CONFIG.gravity * dtSec }

/-- Shake decay (game.js lines 461-464): when positive, decrease by `dt`
and floor at zero. -/
def stepShake (dt s : ℚ) : ℚ := if s > 0 then (if s - dt < 0 then 0 else s - dt) else s

/-- The whole mutable session state of `Game` that `update` touches,
plus event counters for the outbound signals: `overlayShowSignals`
counts the `setTimeout(() => setOverlayVisible(true), 350)` calls of the
win branch, `audioCues` the `playBubbleSound()` calls, `shotsFired` the
fire events (`spawnBullet()` pushes).  `prefersReducedMotion` embeds the
module-level constant of game.js line 61. -/
structure Game where
  width : ℚ
  height : ℚ
  player : Option Player
  pieces : List Piece
  bullets : List Bullet
  particles : List Particle
  pointerX : ℚ
  pointerDown : Bool
  globalTime : ℚ
  lastShotAt : ℚ
  shakeMs : ℚ
  shakeIntensity : ℚ
  isGameOver : Bool
  overlayShowSignals : ℕ
  audioCues : ℕ
  shotsFired : ℕ
  prefersReducedMotion : Bool
  deriving DecidableEq

/-- `Game.createPlayer` (game.js lines 270-278). -/
def createPlayer (width height : ℚ) : Player :=
  { x := width / 2
    y := height * (85 / 100)
    w := max 50 (width * (5 / 100))
    h := max 18 (height * (25 / 1000))
    targetX := width / 2 }

/-- `Game.triggerShake` (game.js lines 386-391): a no-op under
`prefersReducedMotion`, otherwise it sets the shake timer and
intensity. -/
def triggerShake (g : Game) : Game :=
  if g.prefersReducedMotion then g
  else { g with shakeMs := CONFIG.shakeDurationMs, shakeIntensity := 7 }

/-- The bullet speed `0.9 * Math.max(400, height * 0.7)` (game.js line
357). -/
def bulletSpeed (g : Game) : ℚ :=
  (9 / 10) * max CONFIG.bulletSpeedMin (g.height * CONFIG.bulletSpeedFactor)

/-- `Game.spawnBullet` (game.js lines 354-364): pushes a bullet at the
player's nose; a no-op without a player.  The ghost counter
`shotsFired` records the fire event. -/
def spawnBullet (g : Game) : Game :=
  match g.player with
  | none => g
  | some p =>
      { g with
        bullets := g.bullets ++
          [{ x := p.x, y := p.y - p.h / 2, vy := -bulletSpeed g, r := CONFIG.bulletRadius }]
        shotsFired := g.shotsFired + 1 }

/-- The firing condition of game.js line 406:
`!this.isGameOver && this.pointerDown && now() - this.lastShotAt > CONFIG.shootIntervalMs`. -/
def shootCheck (g : Game) (tNow : ℚ) : Bool :=
  !g.isGameOver && g.pointerDown && decide (tNow - g.lastShotAt > CONFIG.shootIntervalMs)

/-- `this.globalTime += dt` (game.js line 399). -/
def stepTime (dt : ℚ) (g : Game) : Game := { g with globalTime := g.globalTime + dt }

/-- Player smoothing and clamping (game.js lines 402-403). -/
def stepPlayer (g : Game) : Game :=
  match g.player with
  | none => g
  | some p =>
      { g with player := some { p with
          x := clamp (lerp p.x p.targetX CONFIG.playerLerp) (p.w / 2) (g.width - p.w / 2) } }

/-- Continuous fire (game.js lines 406-409): when the firing condition
holds, spawn a bullet and reset the shot timer to `now()`. -/
def stepShoot (tNow : ℚ) (g : Game) : Game :=
  if shootCheck g tNow then { spawnBullet g with lastShotAt := tNow } else g

/-- The bullet block on the game state (game.js lines 411-419). -/
def stepBulletMotion (dtSec : ℚ) (g : Game) : Game :=
  { g with bullets := stepBullets dtSec g.bullets }

/-- The collision block (game.js lines 421-440): fold the outer loop
over the bullets — the source iterates `i` from `bullets.length - 1`
down to `0`, which `List.foldr` mirrors by consuming the last bullet
first — then commit the survivors, append the spawned particles, count
the audio cues and apply `triggerShake` when at least one hit occurred
(the call is idempotent, so one application models the per-hit calls). -/
def stepCollisions (rng : ℕ → ExplosionRand) (g : Game) : Game :=
  let acc := g.bullets.foldr (collideBullet rng)
    { bullets := [], pieces := g.pieces, newParticles := [], hitsCount := 0 }
  let g2 := { g with bullets := acc.bullets, pieces := acc.pieces,
                     particles := g.particles ++ acc.newParticles,
                     audioCues := g.audioCues + acc.hitsCount }
  if acc.hitsCount = 0 then g2 else triggerShake g2

/-- The particle block (game.js lines 442-458): reverse iteration with
splice is `List.filterMap` of the single-particle step. -/
def stepParticles (dtSec : ℚ) (g : Game) : Game :=
  { g with particles := g.particles.filterMap (stepParticle dtSec) }

/-- The shake block (game.js lines 460-464). -/
def stepShakeDecay (dt : ℚ) (g : Game) : Game := { g with shakeMs := stepShake dt g.shakeMs }

/-- The victory block (game.js lines 466-472): when the pieces ran out
and the game was not already over, flip `isGameOver` and schedule the
overlay-show signal (counted by `overlayShowSignals`). -/
def stepVictory (g : Game) : Game :=
  if !g.isGameOver && g.pieces.isEmpty then
    { g with isGameOver := true, overlayShowSignals := g.overlayShowSignals + 1 }
  else g

/-- The body of `Game.update` after the delta clamp (game.js lines
399-472), for the already clamped delta `dt`. -/
def updateTick (rng : ℕ → ExplosionRand) (tNow dt : ℚ) (g : Game) : Game :=
  stepVictory (stepShakeDecay dt (stepParticles (dt / 1000) (stepCollisions rng
    (stepBulletMotion (dt / 1000) (stepShoot tNow (stepPlayer (stepTime dt g)))))))

/-- `Game.update(dtMs)` (game.js lines 393-473): early return without a
player, clamp the delta to `CONFIG.maxDeltaMs`, then run the tick.
`tNow` is the wall-clock `now()` read by the firing condition. -/
def update (rng : ℕ → ExplosionRand) (tNow dtMs : ℚ) (g : Game) : Game :=
  match g.player with
  | none => g
  | some _ => updateTick rng tNow (min dtMs CONFIG.maxDeltaMs) g

/-- JS `%` (fmod) for the nonnegative operands it is applied to in the
hue computation. -/
def jsMod (a b : ℚ) : ℚ := a - b * ⌊a / b⌋

/-- The hue computation of `Game.create404Pieces` (game.js lines
332-341), for the `Math.random()` draw `r`: when `hueMin > hueMax` the
range wraps through 0°, `hue = (hueMin + r * ((360 - hueMin) + hueMax)) % 360`,
otherwise `hue = hueMin + r * (hueMax - hueMin)`. -/
def sampleHue (hueMin hueMax r : ℚ) : ℚ :=
  if hueMin > hueMax then
    let range := (360 - hueMin) + hueMax
    jsMod (hueMin + r * range) 360
  else
    hueMin + r * (hueMax - hueMin)

/-! ## Stage projection lemmas -/

@[simp] lemma stepTime_player (dt : ℚ) (g : Game) : (stepTime dt g).player = g.player := rfl

@[simp] lemma stepTime_pieces (dt : ℚ) (g : Game) : (stepTime dt g).pieces = g.pieces := rfl

@[simp] lemma stepTime_bullets (dt : ℚ) (g : Game) : (stepTime dt g).bullets = g.bullets := rfl

@[simp] lemma stepTime_particles (dt : ℚ) (g : Game) :
    (stepTime dt g).particles = g.particles := rfl

@[simp] lemma stepTime_pointerDown (dt : ℚ) (g : Game) :
    (stepTime dt g).pointerDown = g.pointerDown := rfl

@[simp] lemma stepTime_lastShotAt (dt : ℚ) (g : Game) :
    (stepTime dt g).lastShotAt = g.lastShotAt := rfl

@[simp] lemma stepTime_shakeMs (dt : ℚ) (g : Game) : (stepTime dt g).shakeMs = g.shakeMs := rfl

@[simp] lemma stepTime_shakeIntensity (dt : ℚ) (g : Game) :
    (stepTime dt g).shakeIntensity = g.shakeIntensity := rfl

@[simp] lemma stepTime_isGameOver (dt : ℚ) (g : Game) :
    (stepTime dt g).isGameOver = g.isGameOver := rfl

@[simp] lemma stepTime_overlayShowSignals (dt : ℚ) (g : Game) :
    (stepTime dt g).overlayShowSignals = g.overlayShowSignals := rfl

@[simp] lemma stepTime_audioCues (dt : ℚ) (g : Game) :
    (stepTime dt g).audioCues = g.audioCues := rfl

@[simp] lemma stepTime_shotsFired (dt : ℚ) (g : Game) :
    (stepTime dt g).shotsFired = g.shotsFired := rfl

@[simp] lemma stepTime_prm (dt : ℚ) (g : Game) :
    (stepTime dt g).prefersReducedMotion = g.prefersReducedMotion := rfl

@[simp] lemma stepTime_width (dt : ℚ) (g : Game) : (stepTime dt g).width = g.width := rfl

@[simp] lemma stepPlayer_pieces (g : Game) : (stepPlayer g).pieces = g.pieces := by
  unfold stepPlayer; split <;> rfl

@[simp] lemma stepPlayer_bullets (g : Game) : (stepPlayer g).bullets = g.bullets := by
  unfold stepPlayer; split <;> rfl

@[simp] lemma stepPlayer_particles (g : Game) : (stepPlayer g).particles = g.particles := by
  unfold stepPlayer; split <;> rfl

@[simp] lemma stepPlayer_pointerDown (g : Game) : (stepPlayer g).pointerDown = g.pointerDown := by
  unfold stepPlayer; split <;> rfl

@[simp] lemma stepPlayer_lastShotAt (g : Game) : (stepPlayer g).lastShotAt = g.lastShotAt := by
  unfold stepPlayer; split <;> rfl

@[simp] lemma stepPlayer_shakeMs (g : Game) : (stepPlayer g).shakeMs = g.shakeMs := by
  unfold stepPlayer; split <;> rfl

@[simp] lemma stepPlayer_shakeIntensity (g : Game) :
    (stepPlayer g).shakeIntensity = g.shakeIntensity := by
  unfold stepPlayer; split <;> rfl

@[simp] lemma stepPlayer_isGameOver (g : Game) : (stepPlayer g).isGameOver = g.isGameOver := by
  unfold stepPlayer; split <;> rfl

@[simp] lemma stepPlayer_overlayShowSignals (g : Game) :
    (stepPlayer g).overlayShowSignals = g.overlayShowSignals := by
  unfold stepPlayer; split <;> rfl

@[simp] lemma stepPlayer_audioCues (g : Game) : (stepPlayer g).audioCues = g.audioCues := by
  unfold stepPlayer; split <;> rfl

@[simp] lemma stepPlayer_shotsFired (g : Game) : (stepPlayer g).shotsFired = g.shotsFired := by
  unfold stepPlayer; split <;> rfl

@[simp] lemma stepPlayer_prm (g : Game) :
    (stepPlayer g).prefersReducedMotion = g.prefersReducedMotion := by
  unfold stepPlayer; split <;> rfl

@[simp] lemma stepPlayer_width (g : Game) : (stepPlayer g).width = g.width := by
  unfold stepPlayer; split <;> rfl

lemma stepPlayer_player (g : Game) (p : Player) (hp : g.player = some p) :
    (stepPlayer g).player = some { p with
      x := clamp (lerp p.x p.targetX CONFIG.playerLerp) (p.w / 2) (g.width - p.w / 2) } := by
  unfold stepPlayer; rw [hp]

@[simp] lemma stepShoot_player (tNow : ℚ) (g : Game) : (stepShoot tNow g).player = g.player := by
  unfold stepShoot spawnBullet
  split
  · split <;> rfl
  · rfl

@[simp] lemma stepShoot_pieces (tNow : ℚ) (g : Game) : (stepShoot tNow g).pieces = g.pieces := by
  unfold stepShoot spawnBullet
  split
  · split <;> rfl
  · rfl

@[simp] lemma stepShoot_particles (tNow : ℚ) (g : Game) :
    (stepShoot tNow g).particles = g.particles := by
  unfold stepShoot spawnBullet
  split
  · split <;> rfl
  · rfl

@[simp] lemma stepShoot_shakeMs (tNow : ℚ) (g : Game) :
    (stepShoot tNow g).shakeMs = g.shakeMs := by
  unfold stepShoot spawnBullet
  split
  · split <;> rfl
  · rfl

@[simp] lemma stepShoot_shakeIntensity (tNow : ℚ) (g : Game) :
    (stepShoot tNow g).shakeIntensity = g.shakeIntensity := by
  unfold stepShoot spawnBullet
  split
  · split <;> rfl
  · rfl

@[simp] lemma stepShoot_isGameOver (tNow : ℚ) (g : Game) :
    (stepShoot tNow g).isGameOver = g.isGameOver := by
  unfold stepShoot spawnBullet
  split
  · split <;> rfl
  · rfl

@[simp] lemma stepShoot_overlayShowSignals (tNow : ℚ) (g : Game) :
    (stepShoot tNow g).overlayShowSignals = g.overlayShowSignals := by
  unfold stepShoot spawnBullet
  split
  · split <;> rfl
  · rfl

@[simp] lemma stepShoot_audioCues (tNow : ℚ) (g : Game) :
    (stepShoot tNow g).audioCues = g.audioCues := by
  unfold stepShoot spawnBullet
  split
  · split <;> rfl
  · rfl

@[simp] lemma stepShoot_prm (tNow : ℚ) (g : Game) :
    (stepShoot tNow g).prefersReducedMotion = g.prefersReducedMotion := by
  unfold stepShoot spawnBullet
  split
  · split <;> rfl
  · rfl

@[simp] lemma stepShoot_width (tNow : ℚ) (g : Game) : (stepShoot tNow g).width = g.width := by
  unfold stepShoot spawnBullet
  split
  · split <;> rfl
  · rfl

@[simp] lemma stepBulletMotion_player (dtSec : ℚ) (g : Game) :
    (stepBulletMotion dtSec g).player = g.player := rfl

@[simp] lemma stepBulletMotion_pieces (dtSec : ℚ) (g : Game) :
    (stepBulletMotion dtSec g).pieces = g.pieces := rfl

@[simp] lemma stepBulletMotion_particles (dtSec : ℚ) (g : Game) :
    (stepBulletMotion dtSec g).particles = g.particles := rfl

@[simp] lemma stepBulletMotion_shakeMs (dtSec : ℚ) (g : Game) :
    (stepBulletMotion dtSec g).shakeMs = g.shakeMs := rfl

@[simp] lemma stepBulletMotion_shakeIntensity (dtSec : ℚ) (g : Game) :
    (stepBulletMotion dtSec g).shakeIntensity = g.shakeIntensity := rfl

@[simp] lemma stepBulletMotion_isGameOver (dtSec : ℚ) (g : Game) :
    (stepBulletMotion dtSec g).isGameOver = g.isGameOver := rfl

@[simp] lemma stepBulletMotion_overlayShowSignals (dtSec : ℚ) (g : Game) :
    (stepBulletMotion dtSec g).overlayShowSignals = g.overlayShowSignals := rfl

@[simp] lemma stepBulletMotion_audioCues (dtSec : ℚ) (g : Game) :
    (stepBulletMotion dtSec g).audioCues = g.audioCues := rfl

@[simp] lemma stepBulletMotion_shotsFired (dtSec : ℚ) (g : Game) :
    (stepBulletMotion dtSec g).shotsFired = g.shotsFired := rfl

@[simp] lemma stepBulletMotion_prm (dtSec : ℚ) (g : Game) :
    (stepBulletMotion dtSec g).prefersReducedMotion = g.prefersReducedMotion := rfl

@[simp] lemma stepBulletMotion_width (dtSec : ℚ) (g : Game) :
    (stepBulletMotion dtSec g).width = g.width := rfl

@[simp] lemma triggerShake_player (g : Game) : (triggerShake g).player = g.player := by
  unfold triggerShake; split <;> rfl

@[simp] lemma triggerShake_pieces (g : Game) : (triggerShake g).pieces = g.pieces := by
  unfold triggerShake; split <;> rfl

@[simp] lemma triggerShake_bullets (g : Game) : (triggerShake g).bullets = g.bullets := by
  unfold triggerShake; split <;> rfl

@[simp] lemma triggerShake_particles (g : Game) : (triggerShake g).particles = g.particles := by
  unfold triggerShake; split <;> rfl

@[simp] lemma triggerShake_isGameOver (g : Game) :
    (triggerShake g).isGameOver = g.isGameOver := by
  unfold triggerShake; split <;> rfl

@[simp] lemma triggerShake_overlayShowSignals (g : Game) :
    (triggerShake g).overlayShowSignals = g.overlayShowSignals := by
  unfold triggerShake; split <;> rfl

@[simp] lemma triggerShake_audioCues (g : Game) : (triggerShake g).audioCues = g.audioCues := by
  unfold triggerShake; split <;> rfl

@[simp] lemma triggerShake_shotsFired (g : Game) :
    (triggerShake g).shotsFired = g.shotsFired := by
  unfold triggerShake; split <;> rfl

@[simp] lemma triggerShake_prm (g : Game) :
    (triggerShake g).prefersReducedMotion = g.prefersReducedMotion := by
  unfold triggerShake; split <;> rfl

@[simp] lemma triggerShake_width (g : Game) : (triggerShake g).width = g.width := by
  unfold triggerShake; split <;> rfl

@[simp] lemma stepCollisions_player (rng : ℕ → ExplosionRand) (g : Game) :
    (stepCollisions rng g).player = g.player := by
  simp only [stepCollisions]; split <;> simp

@[simp] lemma stepCollisions_isGameOver (rng : ℕ → ExplosionRand) (g : Game) :
    (stepCollisions rng g).isGameOver = g.isGameOver := by
  simp only [stepCollisions]; split <;> simp

@[simp] lemma stepCollisions_overlayShowSignals (rng : ℕ → ExplosionRand) (g : Game) :
    (stepCollisions rng g).overlayShowSignals = g.overlayShowSignals := by
  simp only [stepCollisions]; split <;> simp

@[simp] lemma stepCollisions_shotsFired (rng : ℕ → ExplosionRand) (g : Game) :
    (stepCollisions rng g).shotsFired = g.shotsFired := by
  simp only [stepCollisions]; split <;> simp

@[simp] lemma stepCollisions_prm (rng : ℕ → ExplosionRand) (g : Game) :
    (stepCollisions rng g).prefersReducedMotion = g.prefersReducedMotion := by
  simp only [stepCollisions]; split <;> simp

@[simp] lemma stepCollisions_width (rng : ℕ → ExplosionRand) (g : Game) :
    (stepCollisions rng g).width = g.width := by
  simp only [stepCollisions]; split <;> simp

@[simp] lemma stepParticles_player (dtSec : ℚ) (g : Game) :
    (stepParticles dtSec g).player = g.player := rfl

@[simp] lemma stepParticles_pieces (dtSec : ℚ) (g : Game) :
    (stepParticles dtSec g).pieces = g.pieces := rfl

@[simp] lemma stepParticles_bullets (dtSec : ℚ) (g : Game) :
    (stepParticles dtSec g).bullets = g.bullets := rfl

@[simp] lemma stepParticles_shakeMs (dtSec : ℚ) (g : Game) :
    (stepParticles dtSec g).shakeMs = g.shakeMs := rfl

@[simp] lemma stepParticles_shakeIntensity (dtSec : ℚ) (g : Game) :
    (stepParticles dtSec g).shakeIntensity = g.shakeIntensity := rfl

@[simp] lemma stepParticles_isGameOver (dtSec : ℚ) (g : Game) :
    (stepParticles dtSec g).isGameOver = g.isGameOver := rfl

@[simp] lemma stepParticles_overlayShowSignals (dtSec : ℚ) (g : Game) :
    (stepParticles dtSec g).overlayShowSignals = g.overlayShowSignals := rfl

@[simp] lemma stepParticles_audioCues (dtSec : ℚ) (g : Game) :
    (stepParticles dtSec g).audioCues = g.audioCues := rfl

@[simp] lemma stepParticles_shotsFired (dtSec : ℚ) (g : Game) :
    (stepParticles dtSec g).shotsFired = g.shotsFired := rfl

@[simp] lemma stepParticles_prm (dtSec : ℚ) (g : Game) :
    (stepParticles dtSec g).prefersReducedMotion = g.prefersReducedMotion := rfl

@[simp] lemma stepParticles_width (dtSec : ℚ) (g : Game) :
    (stepParticles dtSec g).width = g.width := rfl

@[simp] lemma stepShakeDecay_player (dt : ℚ) (g : Game) :
    (stepShakeDecay dt g).player = g.player := rfl

@[simp] lemma stepShakeDecay_pieces (dt : ℚ) (g : Game) :
    (stepShakeDecay dt g).pieces = g.pieces := rfl

@[simp] lemma stepShakeDecay_bullets (dt : ℚ) (g : Game) :
    (stepShakeDecay dt g).bullets = g.bullets := rfl

@[simp] lemma stepShakeDecay_particles (dt : ℚ) (g : Game) :
    (stepShakeDecay dt g).particles = g.particles := rfl

@[simp] lemma stepShakeDecay_shakeMs (dt : ℚ) (g : Game) :
    (stepShakeDecay dt g).shakeMs = stepShake dt g.shakeMs := rfl

@[simp] lemma stepShakeDecay_shakeIntensity (dt : ℚ) (g : Game) :
    (stepShakeDecay dt g).shakeIntensity = g.shakeIntensity := rfl

@[simp] lemma stepShakeDecay_isGameOver (dt : ℚ) (g : Game) :
    (stepShakeDecay dt g).isGameOver = g.isGameOver := rfl

@[simp] lemma stepShakeDecay_overlayShowSignals (dt : ℚ) (g : Game) :
    (stepShakeDecay dt g).overlayShowSignals = g.overlayShowSignals := rfl

@[simp] lemma stepShakeDecay_audioCues (dt : ℚ) (g : Game) :
    (stepShakeDecay dt g).audioCues = g.audioCues := rfl

@[simp] lemma stepShakeDecay_shotsFired (dt : ℚ) (g : Game) :
    (stepShakeDecay dt g).shotsFired = g.shotsFired := rfl

@[simp] lemma stepShakeDecay_prm (dt : ℚ) (g : Game) :
    (stepShakeDecay dt g).prefersReducedMotion = g.prefersReducedMotion := rfl

@[simp] lemma stepShakeDecay_width (dt : ℚ) (g : Game) :
    (stepShakeDecay dt g).width = g.width := rfl

@[simp] lemma stepVictory_player (g : Game) : (stepVictory g).player = g.player := by
  unfold stepVictory; split <;> rfl

@[simp] lemma stepVictory_pieces (g : Game) : (stepVictory g).pieces = g.pieces := by
  unfold stepVictory; split <;> rfl

@[simp] lemma stepVictory_bullets (g : Game) : (stepVictory g).bullets = g.bullets := by
  unfold stepVictory; split <;> rfl

@[simp] lemma stepVictory_particles (g : Game) : (stepVictory g).particles = g.particles := by
  unfold stepVictory; split <;> rfl

@[simp] lemma stepVictory_shakeMs (g : Game) : (stepVictory g).shakeMs = g.shakeMs := by
  unfold stepVictory; split <;> rfl

@[simp] lemma stepVictory_shakeIntensity (g : Game) :
    (stepVictory g).shakeIntensity = g.shakeIntensity := by
  unfold stepVictory; split <;> rfl

@[simp] lemma stepVictory_audioCues (g : Game) : (stepVictory g).audioCues = g.audioCues := by
  unfold stepVictory; split <;> rfl

@[simp] lemma stepVictory_shotsFired (g : Game) : (stepVictory g).shotsFired = g.shotsFired := by
  unfold stepVictory; split <;> rfl

@[simp] lemma stepVictory_width (g : Game) : (stepVictory g).width = g.width := by
  unfold stepVictory; split <;> rfl

/-! ## Collision-resolution lemmas -/

lemma removeHit_spec (b : Bullet) :
    ∀ (ps ps2 : List Piece) (p : Piece), removeHit b ps = some (p, ps2) →
      hits b p = true ∧ p ∈ ps ∧ ps.length = ps2.length + 1 := by
  intro ps
  induction ps with
  | nil => intro ps2 p h; simp [removeHit] at h
  | cons q qs ih =>
      intro ps2 p h
      unfold removeHit at h
      cases hrec : removeHit b qs with
      | some pr =>
          obtain ⟨q2, qs2⟩ := pr
          rw [hrec] at h
          simp only [Option.some.injEq, Prod.mk.injEq] at h
          obtain ⟨hq, hlist⟩ := h
          obtain ⟨h1, h2, h3⟩ := ih qs2 q2 hrec
          subst hq
          subst hlist
          exact ⟨h1, List.mem_cons_of_mem _ h2, by simp [h3]⟩
      | none =>
          rw [hrec] at h
          by_cases hh : hits b q
          · simp only [hh, if_true, Option.some.injEq, Prod.mk.injEq] at h
            obtain ⟨hq, hlist⟩ := h
            subst hq
            subst hlist
            exact ⟨hh, List.mem_cons_self _ _, rfl⟩
          · simp [hh] at h

lemma removeHit_none (b : Bullet) :
    ∀ ps : List Piece, removeHit b ps = none → ∀ p ∈ ps, hits b p = false := by
  intro ps
  induction ps with
  | nil => intro _ p hp; simp at hp
  | cons q qs ih =>
      intro h p hp
      unfold removeHit at h
      cases hrec : removeHit b qs with
      | some pr => rw [hrec] at h; cases h
      | none =>
          rw [hrec] at h
          by_cases hh : hits b q
          · simp [hh] at h
          · rcases List.mem_cons.mp hp with h1 | h1
            · subst h1; exact Bool.not_eq_true _ ▸ by simpa using hh
            · exact ih hrec p h1

lemma removeHit_of_overlap (b : Bullet) (ps : List Piece)
    (h : ∃ p ∈ ps, hits b p = true) :
    ∃ p ps2, removeHit b ps = some (p, ps2) := by
  cases hrec : removeHit b ps with
  | some pr => exact ⟨pr.1, pr.2, by simp⟩
  | none =>
      obtain ⟨p, hp, hh⟩ := h
      have := removeHit_none b ps hrec p hp
      rw [hh] at this
      cases this

lemma collideBullet_of_none (rng : ℕ → ExplosionRand) (b : Bullet) (acc : CollideAcc)
    (h : removeHit b acc.pieces = none) :
    collideBullet rng b acc = { acc with bullets := b :: acc.bullets } := by
  unfold collideBullet; rw [h]

lemma collideBullet_of_some (rng : ℕ → ExplosionRand) (b : Bullet) (acc : CollideAcc)
    (p : Piece) (ps2 : List Piece) (h : removeHit b acc.pieces = some (p, ps2)) :
    collideBullet rng b acc =
      { bullets := acc.bullets
        pieces := ps2
        newParticles := acc.newParticles ++ spawnExplosion (rng acc.hitsCount) p.x p.y p.color
        hitsCount := acc.hitsCount + 1 } := by
  unfold collideBullet; rw [h]

/-- Bookkeeping of the collision fold: every hit removes exactly one
piece and exactly one bullet, and the hit counter only grows. -/
lemma collide_foldr_counts (rng : ℕ → ExplosionRand) (bs : List Bullet) (acc : CollideAcc) :
    (bs.foldr (collideBullet rng) acc).pieces.length + (bs.foldr (collideBullet rng) acc).hitsCount
      = acc.pieces.length + acc.hitsCount
    ∧ (bs.foldr (collideBullet rng) acc).hitsCount + (bs.foldr (collideBullet rng) acc).bullets.length
      = acc.hitsCount + acc.bullets.length + bs.length
    ∧ acc.hitsCount ≤ (bs.foldr (collideBullet rng) acc).hitsCount := by
  induction bs with
  | nil => simp
  | cons b bs ih =>
      obtain ⟨ih1, ih2, ih3⟩ := ih
      simp only [List.foldr_cons, List.length_cons]
      cases hrec : removeHit b (bs.foldr (collideBullet rng) acc).pieces with
      | none =>
          rw [collideBullet_of_none rng b _ hrec]
          simp only [List.length_cons]
          omega
      | some pr =>
          obtain ⟨p, ps2⟩ := pr
          obtain ⟨-, -, hlen⟩ := removeHit_spec b _ ps2 p hrec
          rw [collideBullet_of_some rng b _ p ps2 hrec]
          dsimp only
          omega

/-! ## `updateTick` projections -/

lemma updateTick_pieces (rng : ℕ → ExplosionRand) (tNow dt : ℚ) (g : Game) :
    (updateTick rng tNow dt g).pieces =
      ((stepBullets (dt / 1000) (stepShoot tNow (stepPlayer (stepTime dt g))).bullets).foldr
        (collideBullet rng)
        { bullets := [], pieces := g.pieces, newParticles := [], hitsCount := 0 }).pieces := by
  unfold updateTick
  simp only [stepCollisions, stepBulletMotion]
  split <;> simp

lemma updateTick_pieces_length (rng : ℕ → ExplosionRand) (tNow dt : ℚ) (g : Game) :
    (updateTick rng tNow dt g).pieces.length ≤ g.pieces.length := by
  rw [updateTick_pieces]
  have h := collide_foldr_counts rng
    (stepBullets (dt / 1000) (stepShoot tNow (stepPlayer (stepTime dt g))).bullets)
    { bullets := [], pieces := g.pieces, newParticles := [], hitsCount := 0 }
  dsimp only at h
  omega

lemma stepVictory_isGameOver (g : Game) :
    (stepVictory g).isGameOver = (g.isGameOver || g.pieces.isEmpty) := by
  unfold stepVictory
  cases hgo : g.isGameOver <;> cases hpe : g.pieces.isEmpty <;> simp [hgo, hpe]

lemma stepVictory_overlayShowSignals (g : Game) :
    (stepVictory g).overlayShowSignals =
      (if g.isGameOver = false ∧ g.pieces = [] then g.overlayShowSignals + 1
       else g.overlayShowSignals) := by
  unfold stepVictory
  cases hgo : g.isGameOver <;> cases hpe : g.pieces <;> simp [hgo, hpe]

lemma shootCheck_iff (g : Game) (tNow : ℚ) :
    shootCheck g tNow = true ↔
      g.isGameOver = false ∧ g.pointerDown = true ∧
        tNow - g.lastShotAt > CONFIG.shootIntervalMs := by
  simp [shootCheck, and_assoc]

lemma stepShoot_of_false (tNow : ℚ) (g : Game) (h : shootCheck g tNow = false) :
    stepShoot tNow g = g := by
  unfold stepShoot
  rw [h]
  simp

lemma stepShoot_shotsFired_of_true (tNow : ℚ) (g : Game) (p : Player)
    (hp : g.player = some p) (h : shootCheck g tNow = true) :
    (stepShoot tNow g).shotsFired = g.shotsFired + 1 := by
  unfold stepShoot spawnBullet
  rw [h, hp]
  simp

lemma stepShoot_bullets_of_true (tNow : ℚ) (g : Game) (p : Player)
    (hp : g.player = some p) (h : shootCheck g tNow = true) :
    (stepShoot tNow g).bullets = g.bullets ++
      [{ x := p.x, y := p.y - p.h / 2, vy := -bulletSpeed g, r := CONFIG.bulletRadius }] := by
  unfold stepShoot spawnBullet
  rw [h, hp]
  simp

lemma updateTick_player (rng : ℕ → ExplosionRand) (tNow dt : ℚ) (g : Game) :
    (updateTick rng tNow dt g).player = (stepPlayer (stepTime dt g)).player := by
  unfold updateTick
  simp

lemma updateTick_width (rng : ℕ → ExplosionRand) (tNow dt : ℚ) (g : Game) :
    (updateTick rng tNow dt g).width = g.width := by
  unfold updateTick
  simp

lemma updateTick_isGameOver (rng : ℕ → ExplosionRand) (tNow dt : ℚ) (g : Game) :
    (updateTick rng tNow dt g).isGameOver
      = (g.isGameOver || (updateTick rng tNow dt g).pieces.isEmpty) := by
  unfold updateTick
  rw [stepVictory_isGameOver]
  simp

lemma updateTick_overlayShowSignals (rng : ℕ → ExplosionRand) (tNow dt : ℚ) (g : Game) :
    (updateTick rng tNow dt g).overlayShowSignals =
      (if g.isGameOver = false ∧ (updateTick rng tNow dt g).pieces = []
       then g.overlayShowSignals + 1 else g.overlayShowSignals) := by
  unfold updateTick
  rw [stepVictory_overlayShowSignals]
  simp

lemma updateTick_shotsFired (rng : ℕ → ExplosionRand) (tNow dt : ℚ) (g : Game) :
    (updateTick rng tNow dt g).shotsFired
      = (stepShoot tNow (stepPlayer (stepTime dt g))).shotsFired := by
  unfold updateTick
  simp

lemma updateTick_bullets (rng : ℕ → ExplosionRand) (tNow dt : ℚ) (g : Game) :
    (updateTick rng tNow dt g).bullets =
      ((stepBullets (dt / 1000) (stepShoot tNow (stepPlayer (stepTime dt g))).bullets).foldr
        (collideBullet rng)
        { bullets := [], pieces := g.pieces, newParticles := [], hitsCount := 0 }).bullets := by
  unfold updateTick
  simp only [stepCollisions, stepBulletMotion]
  split <;> simp

lemma stepBullets_length_le (dtSec : ℚ) (bs : List Bullet) :
    (stepBullets dtSec bs).length ≤ bs.length := by
  unfold stepBullets
  exact le_trans (List.length_filter_le _ _) (le_of_eq (List.length_map _ _))

lemma stepCollisions_shake_prm (rng : ℕ → ExplosionRand) (g : Game)
    (h : g.prefersReducedMotion = true) :
    (stepCollisions rng g).shakeMs = g.shakeMs
      ∧ (stepCollisions rng g).shakeIntensity = g.shakeIntensity := by
  simp only [stepCollisions]
  split
  · simp
  · constructor <;> simp [triggerShake, h]

lemma updateTick_shake_prm (rng : ℕ → ExplosionRand) (tNow dt : ℚ) (g : Game)
    (h : g.prefersReducedMotion = true) (h0 : g.shakeMs = 0) (h1 : g.shakeIntensity = 0) :
    (updateTick rng tNow dt g).shakeMs = 0 ∧ (updateTick rng tNow dt g).shakeIntensity = 0 := by
  unfold updateTick
  have hprm : (stepBulletMotion (dt / 1000)
      (stepShoot tNow (stepPlayer (stepTime dt g)))).prefersReducedMotion = true := by simp [h]
  have hc := stepCollisions_shake_prm rng _ hprm
  constructor
  · simp [hc.1, stepShake, h0]
  · simp [hc.2, h1]

/-! ## Helper lemmas for the hue range -/

lemma jsMod_eval_lt (a : ℚ) (h0 : 0 ≤ a) (h1 : a < 360) : jsMod a 360 = a := by
  unfold jsMod
  have hfl : ⌊a / 360⌋ = 0 := by
    rw [Int.floor_eq_zero_iff]
    refine Set.mem_Ico.mpr ⟨by positivity, ?_⟩
    rw [div_lt_one (by norm_num)]
    exact h1
  rw [hfl]
  push_cast
  ring

lemma jsMod_eval_ge (a : ℚ) (h0 : 360 ≤ a) (h1 : a < 720) : jsMod a 360 = a - 360 := by
  unfold jsMod
  have hfl : ⌊a / 360⌋ = 1 := by
    rw [Int.floor_eq_iff]
    constructor
    · push_cast
      rw [le_div_iff₀ (by norm_num : (0:ℚ) < 360)]
      linarith
    · push_cast
      rw [div_lt_iff₀ (by norm_num : (0:ℚ) < 360)]
      linarith
  rw [hfl]
  push_cast
  ring

/-! ## Concrete fixtures used by witnesses and counterexamples -/

/-- A fixed random stream: every explosion gets `countDraw = 0` (12
particles) and unit seeds. -/
def rng0 : ℕ → ExplosionRand := fun _ =>
  { countDraw := 0, seed := fun _ => { vx := 1, vy := 0, lifeDraw := 0 } }

def playerEx : Player := { x := 400, y := 340, w := 50, h := 18, targetX := 400 }

def pieceA : Piece := { x := 96, y := 47, r := 3, color := 200 }

def pieceB : Piece := { x := 105, y := 47, r := 3, color := 210 }

def bulletC : Bullet := { x := 201 / 2, y := 47, vy := -360, r := 4 }

/-- A session state in which one bullet overlaps two pieces at once. -/
def gameC1 : Game :=
  { width := 800, height := 400, player := some playerEx,
    pieces := [pieceA, pieceB], bullets := [bulletC], particles := [],
    pointerX := 0, pointerDown := false, globalTime := 0, lastShotAt := 0,
    shakeMs := 0, shakeIntensity := 0, isGameOver := false,
    overlayShowSignals := 0, audioCues := 0, shotsFired := 0,
    prefersReducedMotion := false }

/-- A generic mid-session state with one live piece. -/
def gameEx : Game :=
  { width := 800, height := 400, player := some playerEx,
    pieces := [pieceA], bullets := [], particles := [],
    pointerX := 0, pointerDown := false, globalTime := 0, lastShotAt := 0,
    shakeMs := 0, shakeIntensity := 0, isGameOver := false,
    overlayShowSignals := 0, audioCues := 0, shotsFired := 0,
    prefersReducedMotion := false }

/-- A session state with no pieces left and the game not yet over. -/
def gameEmpty : Game :=
  { width := 800, height := 400, player := some playerEx,
    pieces := [], bullets := [], particles := [],
    pointerX := 0, pointerDown := false, globalTime := 0, lastShotAt := 0,
    shakeMs := 0, shakeIntensity := 0, isGameOver := false,
    overlayShowSignals := 0, audioCues := 0, shotsFired := 0,
    prefersReducedMotion := false }

/-- A session state in which the firing condition holds. -/
def gameFire : Game :=
  { width := 800, height := 400, player := some playerEx,
    pieces := [pieceA], bullets := [], particles := [],
    pointerX := 400, pointerDown := true, globalTime := 0, lastShotAt := 0,
    shakeMs := 0, shakeIntensity := 0, isGameOver := false,
    overlayShowSignals := 0, audioCues := 0, shotsFired := 0,
    prefersReducedMotion := false }

/-- A reduced-motion session state with no shake. -/
def gameRM : Game :=
  { width := 800, height := 400, player := some playerEx,
    pieces := [pieceA], bullets := [], particles := [],
    pointerX := 0, pointerDown := false, globalTime := 0, lastShotAt := 0,
    shakeMs := 0, shakeIntensity := 0, isGameOver := false,
    overlayShowSignals := 0, audioCues := 0, shotsFired := 0,
    prefersReducedMotion := true }

def paEx : Particle :=
  { x := 0, y := 0, vx := 0, vy := 0, life := 2, age := 0, alpha := 1, color := 0 }

/-- The state of `paEx` after a 1-millisecond-per-unit step of 1 (one
second of particle time). -/
def paEx2 : Particle :=
  { x := 0, y := 0, vx := 0, vy := 120, life := 2, age := 1, alpha := 1 / 2, color := 0 }

/-! ## Claims -/

/-- Claim C8: for every elapsed wall time `dtMs` passed to `update`, all
state advancement in that tick uses the clamped delta
`min dtMs CONFIG.maxDeltaMs`: running `update` on `dtMs` is the same as
running it on the already clamped delta, so a stalled or hidden period
never injects a delta larger than the clamp. -/
theorem update_uses_clamped_delta (rng : ℕ → ExplosionRand) (tNow dtMs : ℚ) (g : Game) :
    update rng tNow dtMs g = update rng tNow (min dtMs CONFIG.maxDeltaMs) g := by
  unfold update
  rw [min_assoc, min_self]

/-- Claim C10: under reduced motion `triggerShake` changes no state at
all (and the shake fields stay zero through every tick of the session);
otherwise it modifies only the shake duration and shake intensity
fields, leaving every other field unchanged. -/
theorem triggerShake_shake_only (g : Game) :
    (g.prefersReducedMotion = true → triggerShake g = g)
    ∧ (g.prefersReducedMotion = false →
        triggerShake g = { g with shakeMs := CONFIG.shakeDurationMs, shakeIntensity := 7 })
    ∧ (∀ (rng : ℕ → ExplosionRand) (tNow dtMs : ℚ),
        g.prefersReducedMotion = true → g.shakeMs = 0 → g.shakeIntensity = 0 →
        (update rng tNow dtMs g).shakeMs = 0 ∧ (update rng tNow dtMs g).shakeIntensity = 0) := by
  refine ⟨?_, ?_, ?_⟩
  · intro h
    unfold triggerShake
    rw [if_pos h]
  · intro h
    unfold triggerShake
    rw [if_neg (by simp [h])]
  · intro rng tNow dtMs h h0 h1
    unfold update
    cases hp : g.player with
    | none => exact ⟨h0, h1⟩
    | some p => exact updateTick_shake_prm rng tNow _ g h h0 h1

theorem triggerShake_shake_only_witness :
    triggerShake gameRM = gameRM
    ∧ (update rng0 0 16 gameRM).shakeMs = 0
    ∧ (update rng0 0 16 gameRM).shakeIntensity = 0 :=
  ⟨(triggerShake_shake_only gameRM).1 rfl,
   (triggerShake_shake_only gameRM).2.2 rng0 0 16 rfl rfl rfl⟩

/-- Claim C5: an updated surviving explosion particle has
`alpha = 1 - age/life` for its incremented age, the alpha strictly
decreases across a tick with positive delta (within a positive life),
and the particle is removed exactly when its incremented age reaches its
life. -/
theorem particle_alpha_fade (dtSec : ℚ) (pa : Particle) :
    (stepParticle dtSec pa = none ↔ pa.life ≤ pa.age + dtSec)
    ∧ ∀ pa2, stepParticle dtSec pa = some pa2 →
        pa2.age = pa.age + dtSec ∧ pa2.life = pa.life
        ∧ pa2.alpha = 1 - pa2.age / pa2.life
        ∧ (0 < dtSec → 0 < pa.life → pa2.alpha < 1 - pa.age / pa.life) := by
  constructor
  · constructor
    · intro h
      by_contra hlt
      push_neg at hlt
      simp only [stepParticle] at h
      rw [if_neg (not_le.mpr hlt)] at h
      cases h
    · intro h
      simp only [stepParticle]
      rw [if_pos h]
  · intro pa2 h
    simp only [stepParticle] at h
    by_cases hge : pa.life ≤ pa.age + dtSec
    · rw [if_pos hge] at h
      cases h
    · rw [if_neg hge] at h
      push_neg at hge
      injection h with h2
      subst h2
      refine ⟨rfl, rfl, rfl, ?_⟩
      intro hdt hlife
      dsimp only
      have hd : pa.age / pa.life < (pa.age + dtSec) / pa.life :=
        (div_lt_div_iff_of_pos_right hlife).mpr (by linarith)
      linarith

theorem particle_alpha_fade_witness :
    paEx2.age = paEx.age + 1 ∧ paEx2.life = paEx.life
    ∧ paEx2.alpha = 1 - paEx2.age / paEx2.life
    ∧ paEx2.alpha < 1 - paEx.age / paEx.life :=
  ⟨((particle_alpha_fade 1 paEx).2 paEx2 (by with_unfolding_all decide)).1,
   ((particle_alpha_fade 1 paEx).2 paEx2 (by with_unfolding_all decide)).2.1,
   ((particle_alpha_fade 1 paEx).2 paEx2 (by with_unfolding_all decide)).2.2.1,
   ((particle_alpha_fade 1 paEx).2 paEx2 (by with_unfolding_all decide)).2.2.2 one_pos
     (by with_unfolding_all decide)⟩

/-- Claim C6: for every random draw in `[0,1)`, hue sampling with
`hueMin = 340, hueMax = 20` lands in `[340,360) ∪ [0,20]`, with
`hueMin = 180, hueMax = 300` in `[180,300]`, and whenever
`hueMin > hueMax` (within CSS hue bounds) the sampled value is
`hueMin + d` reduced mod 360 for an offset `d` inside the wrap arc of
width `(360 - hueMin) + hueMax`. -/
theorem hue_range_sound :
    (∀ r : ℚ, 0 ≤ r → r < 1 →
        (340 ≤ sampleHue 340 20 r ∧ sampleHue 340 20 r < 360)
        ∨ (0 ≤ sampleHue 340 20 r ∧ sampleHue 340 20 r ≤ 20))
    ∧ (∀ r : ℚ, 0 ≤ r → r < 1 →
        180 ≤ sampleHue 180 300 r ∧ sampleHue 180 300 r ≤ 300)
    ∧ (∀ hmin hmax r : ℚ, hmax < hmin → 0 ≤ hmax → hmin < 360 → 0 ≤ r → r < 1 →
        ∃ d, 0 ≤ d ∧ d < (360 - hmin) + hmax
          ∧ sampleHue hmin hmax r = jsMod (hmin + d) 360) := by
  refine ⟨?_, ?_, ?_⟩
  · intro r h0 h1
    have hrange : sampleHue 340 20 r = jsMod (340 + r * 40) 360 := by
      unfold sampleHue
      rw [if_pos (by norm_num)]
      norm_num
    by_cases hc : 340 + r * 40 < 360
    · left
      rw [hrange, jsMod_eval_lt _ (by nlinarith) hc]
      constructor <;> nlinarith
    · right
      push_neg at hc
      rw [hrange, jsMod_eval_ge _ hc (by nlinarith)]
      constructor <;> nlinarith
  · intro r h0 h1
    have hrange : sampleHue 180 300 r = 180 + r * 120 := by
      unfold sampleHue
      rw [if_neg (by norm_num)]
      norm_num
    rw [hrange]
    constructor <;> nlinarith
  · intro hmin hmax r hlt hmax0 hmin360 h0 h1
    have hwidth : 0 < (360 - hmin) + hmax := by linarith
    refine ⟨r * ((360 - hmin) + hmax), by positivity, ?_, ?_⟩
    · nlinarith
    · unfold sampleHue
      rw [if_pos hlt]

theorem hue_range_sound_witness :
    ((340 ≤ sampleHue 340 20 (1 / 2) ∧ sampleHue 340 20 (1 / 2) < 360)
      ∨ (0 ≤ sampleHue 340 20 (1 / 2) ∧ sampleHue 340 20 (1 / 2) ≤ 20))
    ∧ (180 ≤ sampleHue 180 300 (1 / 2) ∧ sampleHue 180 300 (1 / 2) ≤ 300) :=
  ⟨hue_range_sound.1 (1 / 2) (by with_unfolding_all decide) (by with_unfolding_all decide),
   hue_range_sound.2.1 (1 / 2) (by with_unfolding_all decide) (by with_unfolding_all decide)⟩

lemma collide_bullets_le (rng : ℕ → ExplosionRand) (bs : List Bullet) (ps : List Piece) :
    ((bs.foldr (collideBullet rng)
      { bullets := [], pieces := ps, newParticles := [], hitsCount := 0 }).bullets).length
      ≤ bs.length := by
  have h := (collide_foldr_counts rng bs
    { bullets := [], pieces := ps, newParticles := [], hitsCount := 0 }).2.1
  simp at h
  omega

/-- Claim C2: across any tick the piece count never grows; once the
game-over flag is set it stays set and the overlay signal is never
re-fired; and the flag flips (with exactly one overlay signal) precisely
on the tick whose end state has no pieces left. -/
theorem pieces_monotone_gameover_once (rng : ℕ → ExplosionRand) (tNow dtMs : ℚ) (g : Game) :
    (update rng tNow dtMs g).pieces.length ≤ g.pieces.length
    ∧ (g.isGameOver = true →
        (update rng tNow dtMs g).isGameOver = true
        ∧ (update rng tNow dtMs g).overlayShowSignals = g.overlayShowSignals)
    ∧ (g.isGameOver = false →
        ((update rng tNow dtMs g).pieces = [] → g.player.isSome = true →
            (update rng tNow dtMs g).isGameOver = true
            ∧ (update rng tNow dtMs g).overlayShowSignals = g.overlayShowSignals + 1)
        ∧ ((update rng tNow dtMs g).pieces ≠ [] →
            (update rng tNow dtMs g).isGameOver = false
            ∧ (update rng tNow dtMs g).overlayShowSignals = g.overlayShowSignals)) := by
  unfold update
  cases hp : g.player with
  | none =>
      refine ⟨le_refl _, fun h => ⟨h, rfl⟩, fun h => ⟨fun _ hsome => ?_, fun _ => ⟨h, rfl⟩⟩⟩
      simp at hsome
  | some p =>
      refine ⟨updateTick_pieces_length rng tNow _ g, ?_, ?_⟩
      · intro h
        constructor
        · rw [updateTick_isGameOver, h]
          simp
        · rw [updateTick_overlayShowSignals, if_neg (by simp [h])]
      · intro h
        constructor
        · intro hpieces _
          constructor
          · rw [updateTick_isGameOver, h, hpieces]
            simp
          · rw [updateTick_overlayShowSignals, if_pos ⟨h, hpieces⟩]
        · intro hne
          constructor
          · rw [updateTick_isGameOver, h]
            simpa using hne
          · rw [updateTick_overlayShowSignals, if_neg (fun hc => hne hc.2)]

theorem pieces_monotone_gameover_once_witness :
    (update rng0 0 24 gameEmpty).pieces.length ≤ gameEmpty.pieces.length
    ∧ (update rng0 0 24 gameEmpty).isGameOver = true
    ∧ (update rng0 0 24 gameEmpty).overlayShowSignals = gameEmpty.overlayShowSignals + 1 :=
  ⟨(pieces_monotone_gameover_once rng0 0 24 gameEmpty).1,
   ((pieces_monotone_gameover_once rng0 0 24 gameEmpty).2.2 rfl).1
     (by with_unfolding_all decide) rfl⟩

/-- Claim C9: when `update` runs while the piece set is empty and the
game is not already over (for instance because rasterization produced
zero pieces), that very first update marks the game over and schedules
the overlay-show signal; there is no separate no-target state. -/
theorem no_target_first_update (rng : ℕ → ExplosionRand) (tNow dtMs : ℚ) (g : Game)
    (p : Player) (hp : g.player = some p) (hpieces : g.pieces = [])
    (hgo : g.isGameOver = false) :
    (update rng tNow dtMs g).isGameOver = true
    ∧ (update rng tNow dtMs g).overlayShowSignals = g.overlayShowSignals + 1 := by
  unfold update
  rw [hp]
  have hempty : (updateTick rng tNow (min dtMs CONFIG.maxDeltaMs) g).pieces = [] := by
    have hlen := updateTick_pieces_length rng tNow (min dtMs CONFIG.maxDeltaMs) g
    rw [hpieces] at hlen
    exact List.length_eq_zero.mp (Nat.le_zero.mp hlen)
  constructor
  · rw [updateTick_isGameOver, hgo, hempty]
    simp
  · rw [updateTick_overlayShowSignals, if_pos ⟨hgo, hempty⟩]

theorem no_target_first_update_witness :
    (update rng0 0 16 gameEmpty).isGameOver = true
    ∧ (update rng0 0 16 gameEmpty).overlayShowSignals = gameEmpty.overlayShowSignals + 1 :=
  no_target_first_update rng0 0 16 gameEmpty playerEx rfl rfl rfl

/-- Claim C3: a fire event happens in a tick (the ghost counter
`shotsFired` increments) exactly when the game is not over, the pointer
is held, and the wall-clock time since the last shot exceeds the shoot
interval; in every other case no fire event happens and the bullet count
cannot increase across the tick. -/
theorem bullet_spawn_iff (rng : ℕ → ExplosionRand) (tNow dtMs : ℚ) (g : Game) (p : Player)
    (hp : g.player = some p) :
    ((update rng tNow dtMs g).shotsFired = g.shotsFired + 1 ↔
        g.isGameOver = false ∧ g.pointerDown = true ∧
          tNow - g.lastShotAt > CONFIG.shootIntervalMs)
    ∧ (¬(g.isGameOver = false ∧ g.pointerDown = true ∧
          tNow - g.lastShotAt > CONFIG.shootIntervalMs) →
        (update rng tNow dtMs g).shotsFired = g.shotsFired
        ∧ (update rng tNow dtMs g).bullets.length ≤ g.bullets.length) := by
  unfold update
  rw [hp]
  have hsc : shootCheck (stepPlayer (stepTime (min dtMs CONFIG.maxDeltaMs) g)) tNow
      = shootCheck g tNow := by
    unfold shootCheck
    simp
  have hsf := updateTick_shotsFired rng tNow (min dtMs CONFIG.maxDeltaMs) g
  have hplayer2 := stepPlayer_player (stepTime (min dtMs CONFIG.maxDeltaMs) g) p (by simp [hp])
  cases hcond : shootCheck g tNow with
  | true =>
      constructor
      · constructor
        · intro _
          exact (shootCheck_iff g tNow).mp hcond
        · intro _
          rw [hsf, stepShoot_shotsFired_of_true tNow _ _ hplayer2 (hsc.trans hcond)]
          simp
      · intro hnc
        exact absurd ((shootCheck_iff g tNow).mp hcond) hnc
  | false =>
      have hid : stepShoot tNow (stepPlayer (stepTime (min dtMs CONFIG.maxDeltaMs) g))
          = stepPlayer (stepTime (min dtMs CONFIG.maxDeltaMs) g) :=
        stepShoot_of_false tNow _ (hsc.trans hcond)
      constructor
      · constructor
        · intro habs
          rw [hsf, hid] at habs
          simp at habs
        · intro hc
          rw [← shootCheck_iff g tNow] at hc
          rw [hcond] at hc
          cases hc
      · intro _
        constructor
        · rw [hsf, hid]
          simp
        · rw [updateTick_bullets]
          have h1 : (stepShoot tNow (stepPlayer (stepTime (min dtMs CONFIG.maxDeltaMs) g))).bullets
              = g.bullets := by
            rw [hid]
            simp
          rw [h1]
          exact le_trans (collide_bullets_le rng _ _) (stepBullets_length_le _ _)

theorem bullet_spawn_iff_witness :
    (update rng0 200 16 gameFire).shotsFired = gameFire.shotsFired + 1 :=
  (bullet_spawn_iff rng0 200 16 gameFire playerEx rfl).1.mpr
    ⟨rfl, rfl, by with_unfolding_all decide⟩

/-- Claim C4: whenever the player exists (and its width fits the
viewport, as `createPlayer` guarantees for any viewport at least 50 CSS
pixels wide), the player's x position after any update lies in
`[w/2, width - w/2]`, for every delta and every pointer target. -/
theorem player_clamped (rng : ℕ → ExplosionRand) (tNow dtMs : ℚ) (g : Game) (p : Player)
    (hp : g.player = some p) (hw : p.w ≤ g.width) :
    (∃ q : Player, (update rng tNow dtMs g).player = some q
      ∧ p.w / 2 ≤ q.x ∧ q.x ≤ g.width - p.w / 2 ∧ q.w = p.w)
    ∧ (∀ wd ht : ℚ, 50 ≤ wd → (createPlayer wd ht).w ≤ wd) := by
  constructor
  · unfold update
    rw [hp]
    rw [updateTick_player]
    rw [stepPlayer_player _ p (by simp [hp])]
    simp only [stepTime_width]
    refine ⟨_, rfl, ?_, ?_, rfl⟩
    · exact le_max_left _ _
    · unfold clamp
      apply max_le
      · linarith
      · exact le_trans (min_le_left _ _) (le_refl _)
  · intro wd ht h50
    unfold createPlayer
    dsimp only
    apply max_le
    · linarith
    · nlinarith

theorem player_clamped_witness :
    ∃ q : Player, (update rng0 0 16 gameEx).player = some q
      ∧ playerEx.w / 2 ≤ q.x ∧ q.x ≤ gameEx.width - playerEx.w / 2 ∧ q.w = playerEx.w :=
  (player_clamped rng0 0 16 gameEx playerEx rfl (by with_unfolding_all decide)).1

/-- Claim C7: in any tick, each bullet destroys at most one piece: over
the whole collision fold, the number of destroyed pieces equals the
number of removed bullets (each hit consumes exactly one of each), and a
single bullet's collision step removes at most one piece. -/
theorem bullet_at_most_one_piece (rng : ℕ → ExplosionRand) (bs : List Bullet)
    (ps : List Piece) :
    ((bs.foldr (collideBullet rng)
        { bullets := [], pieces := ps, newParticles := [], hitsCount := 0 }).pieces.length
      + (bs.foldr (collideBullet rng)
        { bullets := [], pieces := ps, newParticles := [], hitsCount := 0 }).hitsCount
      = ps.length)
    ∧ ((bs.foldr (collideBullet rng)
        { bullets := [], pieces := ps, newParticles := [], hitsCount := 0 }).hitsCount
      + (bs.foldr (collideBullet rng)
        { bullets := [], pieces := ps, newParticles := [], hitsCount := 0 }).bullets.length
      = bs.length)
    ∧ ∀ (b : Bullet) (acc : CollideAcc),
        acc.pieces.length ≤ (collideBullet rng b acc).pieces.length + 1 := by
  have h := collide_foldr_counts rng bs
    { bullets := [], pieces := ps, newParticles := [], hitsCount := 0 }
  simp only [List.length_nil, Nat.add_zero, Nat.zero_add] at h
  refine ⟨by omega, by omega, ?_⟩
  intro b acc
  cases hrec : removeHit b acc.pieces with
  | none =>
      rw [collideBullet_of_none rng b acc hrec]
      dsimp only
      omega
  | some pr =>
      obtain ⟨p, ps2⟩ := pr
      obtain ⟨-, -, hlen⟩ := removeHit_spec b acc.pieces ps2 p hrec
      rw [collideBullet_of_some rng b acc p ps2 hrec]
      dsimp only
      omega

/-- Claim C1 as stated is false: a bullet overlapping two pieces at the
start of a tick removes only its first-found overlapping piece, so the
other overlapping pair is NOT both-removed by the end of the tick.  In
`gameC1` the bullet overlaps `pieceA` at the start of the tick (and
still overlaps it at collision-test time), yet after the update `pieceA`
is still alive. -/
theorem overlap_pair_not_both_removed :
    hits bulletC pieceA = true
    ∧ bulletC ∈ gameC1.bullets ∧ pieceA ∈ gameC1.pieces
    ∧ (update rng0 0 8 gameC1).pieces = [pieceA] := by
  with_unfolding_all decide

/-- Claim C1 amended: for every bullet that overlaps at least one live
piece when the collision loop reaches it, the loop removes that bullet
together with exactly one overlapping piece (the first found, scanning
pieces from the end), and spawns exactly one explosion burst, every
particle of which sits at the removed piece's prior position. -/
theorem collision_first_match_resolution (rng : ℕ → ExplosionRand) (b : Bullet)
    (acc : CollideAcc) (h : ∃ p ∈ acc.pieces, hits b p = true) :
    ∃ p ps2, removeHit b acc.pieces = some (p, ps2)
      ∧ hits b p = true ∧ p ∈ acc.pieces
      ∧ acc.pieces.length = ps2.length + 1
      ∧ collideBullet rng b acc =
          { bullets := acc.bullets
            pieces := ps2
            newParticles := acc.newParticles ++ spawnExplosion (rng acc.hitsCount) p.x p.y p.color
            hitsCount := acc.hitsCount + 1 }
      ∧ ∀ q ∈ spawnExplosion (rng acc.hitsCount) p.x p.y p.color, q.x = p.x ∧ q.y = p.y := by
  obtain ⟨p, ps2, hrh⟩ := removeHit_of_overlap b acc.pieces h
  obtain ⟨hh, hmem, hlen⟩ := removeHit_spec b acc.pieces ps2 p hrh
  refine ⟨p, ps2, hrh, hh, hmem, hlen, collideBullet_of_some rng b acc p ps2 hrh, ?_⟩
  intro q hq
  unfold spawnExplosion at hq
  simp only [List.mem_map, List.mem_range] at hq
  obtain ⟨i, -, rfl⟩ := hq
  exact ⟨rfl, rfl⟩

def accEx : CollideAcc :=
  { bullets := [], pieces := [pieceA], newParticles := [], hitsCount := 0 }

def bulletD : Bullet := { x := 96, y := 47, vy := -360, r := 4 }

theorem collision_first_match_resolution_witness :
    ∃ p ps2, removeHit bulletD accEx.pieces = some (p, ps2)
      ∧ hits bulletD p = true ∧ p ∈ accEx.pieces
      ∧ accEx.pieces.length = ps2.length + 1
      ∧ collideBullet rng0 bulletD accEx =
          { bullets := accEx.bullets
            pieces := ps2
            newParticles := accEx.newParticles
              ++ spawnExplosion (rng0 accEx.hitsCount) p.x p.y p.color
            hitsCount := accEx.hitsCount + 1 }
      ∧ ∀ q ∈ spawnExplosion (rng0 accEx.hitsCount) p.x p.y p.color,
          q.x = p.x ∧ q.y = p.y :=
  collision_first_match_resolution rng0 bulletD accEx
    ⟨pieceA, by with_unfolding_all decide, by with_unfolding_all decide⟩

end ErrorPages
